import Mathlib

/-!
Verification of the Unjob-Socket presence-and-relay server.

The embedding models the Socket.IO server of the repository: the two
in-memory JS `Map`s (`onlineUsers : userId -> {socketId, status}` and
`userSockets : socketId -> userId`), room membership, and each event
handler as a pure function from server state to a new state together
with the list of emissions the handler performs.  JS `Map` is modelled
as an association list with insertion-order semantics (`set` on an
existing key replaces in place, otherwise appends; `delete` removes the
key; `keys` is the list of first components in order).  JS falsiness of
an optional string (`undefined` or `""`) is modelled by `strFalsy`.
-/

abbrev UserId := String
abbrev ChannelId := String
abbrev RoomId := String

/-- The value stored in `onlineUsers`: `{ socketId: socket.id, status: "online" }`. -/
structure PresenceEntry where
  socketId : ChannelId
  status : String
deriving DecidableEq, Repr

/-- JS `Map.get`: the value at the first matching key, if any. -/
def mapGet {β : Type} (m : List (String × β)) (k : String) : Option β :=
  match m with
  | [] => none
  | (k', v) :: rest => if k' = k then some v else mapGet rest k

/-- JS `Map.set`: replace in place when the key is present (insertion order
is kept), otherwise append at the end. -/
def mapSet {β : Type} (m : List (String × β)) (k : String) (v : β) : List (String × β) :=
  match m with
  | [] => [(k, v)]
  | (k', v') :: rest => if k' = k then (k, v) :: rest else (k', v') :: mapSet rest k v

/-- JS `Map.delete`: remove the key (all occurrences; reachable states have
unique keys, where this coincides with deleting the single entry). -/
def mapDelete {β : Type} (m : List (String × β)) (k : String) : List (String × β) :=
  match m with
  | [] => []
  | (k', v') :: rest => if k' = k then mapDelete rest k else (k', v') :: mapDelete rest k

/-- JS `Array.from(map.keys())`: the keys in insertion order. -/
def mapKeys {β : Type} (m : List (String × β)) : List String :=
  m.map (fun p => p.1)

/-- JS falsiness of an optional string: `undefined` and `""` are falsy. -/
def strFalsy : Option String → Bool
  | none => true
  | some s => s.isEmpty

/-- The mutable state of the server: the two presence maps plus the
room membership each socket has joined (`socket.join`). -/
structure ServerState where
  onlineUsers : List (UserId × PresenceEntry)
  userSockets : List (ChannelId × UserId)
  rooms : List (ChannelId × List RoomId)
deriving DecidableEq, Repr

def initState : ServerState := ⟨[], [], []⟩

/-- The rooms a socket has joined (not counting the implicit room named
after its own socket id). -/
def joinedRooms (st : ServerState) (c : ChannelId) : List RoomId :=
  (mapGet st.rooms c).getD []

/-- Spec vocabulary `lookupChannel`: the routing target of a user, read
from the code's `onlineUsers` map. -/
def lookupChannel (st : ServerState) (u : UserId) : Option ChannelId :=
  (mapGet st.onlineUsers u).map (fun e => e.socketId)

/-- Spec vocabulary `isOnline`. -/
def isOnline (st : ServerState) (u : UserId) : Bool :=
  (mapGet st.onlineUsers u).isSome

/-- Spec vocabulary `snapshotUserIds`: `Array.from(onlineUsers.keys())`. -/
def snapshotUserIds (st : ServerState) : List UserId :=
  mapKeys st.onlineUsers

/-- Where an emission is addressed.  `broadcast s` is
`socket.broadcast.emit` (everyone but `s`); `all` is `io.emit`;
`room r s` is `socket.to(r).emit` (members of `r` except `s`);
`channel c` is `io.to(c).emit` with `c` a socket id; `self c` is
`socket.emit` on socket `c`. -/
inductive EmitTarget where
  | broadcast (sender : ChannelId)
  | all
  | room (r : RoomId) (sender : ChannelId)
  | channel (c : ChannelId)
  | self (c : ChannelId)
deriving DecidableEq, Repr

/-- The message object of `sendMessage`: only `conversationId` matters to
the relay; the rest of the fields travel opaquely in `content`. -/
structure Message where
  conversationId : Option String
  content : String
deriving DecidableEq, Repr

inductive Payload where
  | userIdP (u : UserId)
  | userList (us : List UserId)
  | userLeftRoomP (u : Option UserId) (room : RoomId)
  | newMessageP (m : Message)
  | errorP (msg : String)
  | callSignal (fromId : UserId) (signal : String)
  | iceCandidateP (fromId : Option UserId) (candidate : String)
  | readReceiptP (conversationId : String) (userId : String) (messageIds : List String)
  | typingP (conversationId : String) (userId : String)
deriving DecidableEq, Repr

structure Emission where
  target : EmitTarget
  event : String
  payload : Payload
deriving DecidableEq, Repr

/-- Whether a socket has currently joined a room. -/
def inRoom (st : ServerState) (c : ChannelId) (r : RoomId) : Bool :=
  (joinedRooms st c).contains r

/-- Socket.IO delivery semantics: which connected channel receives an
emission, given the current membership state. -/
def delivers (st : ServerState) (connected : List ChannelId) (e : Emission)
    (ch : ChannelId) : Bool :=
  match e.target with
  | EmitTarget.broadcast s => connected.contains ch && ch != s
  | EmitTarget.all => connected.contains ch
  | EmitTarget.room r s => inRoom st ch r && ch != s
  | EmitTarget.channel c => ch == c
  | EmitTarget.self c => ch == c

/-- Whether channel `ch` receives at least one emission named `ev` from
the list `ems`. -/
def receivesEvent (st : ServerState) (connected : List ChannelId)
    (ems : List Emission) (ch : ChannelId) (ev : String) : Bool :=
  ems.any (fun e => e.event == ev && delivers st connected e ch)

/-- `broadcastOnlineUsers(socket)`: `(socket || io).emit("onlineUsersList",
Array.from(onlineUsers.keys()))`. -/
def broadcastOnlineUsers (st : ServerState) (maybeSocket : Option ChannelId) : Emission :=
  { target := match maybeSocket with
      | some c => EmitTarget.self c
      | none => EmitTarget.all,
    event := "onlineUsersList",
    payload := Payload.userList (mapKeys st.onlineUsers) }

/-- `handleUserConnection(socket, userId)`: store both map entries, then
`socket.broadcast.emit("userOnline", userId)`, then
`broadcastOnlineUsers()` with no argument (so it reads the updated map
and goes through `io.emit`). -/
def handleUserConnection (st : ServerState) (socketId : ChannelId) (userId : UserId) :
    ServerState × List Emission :=
  let st' : ServerState := { st with
    onlineUsers := mapSet st.onlineUsers userId { socketId := socketId, status := "online" },
    userSockets := mapSet st.userSockets socketId userId }
  (st', [{ target := EmitTarget.broadcast socketId, event := "userOnline",
           payload := Payload.userIdP userId },
         broadcastOnlineUsers st' none])

/-- `handleUserDisconnection(socket)`: `user-left-room` to every room in
`socket.rooms` other than the socket's own id room; then look up the
socket in `userSockets` and, when found, delete both map entries,
broadcast `userOffline` and rebroadcast the roster. -/
def handleUserDisconnection (st : ServerState) (socketId : ChannelId) :
    ServerState × List Emission :=
  let socketRoomSet := socketId :: joinedRooms st socketId
  let leftEvents := (socketRoomSet.filter (fun r => r != socketId)).map
    (fun r => { target := EmitTarget.room r socketId, event := "user-left-room",
                payload := Payload.userLeftRoomP (mapGet st.userSockets socketId) r : Emission })
  match mapGet st.userSockets socketId with
  | some u =>
    let st' : ServerState := { st with
      onlineUsers := mapDelete st.onlineUsers u,
      userSockets := mapDelete st.userSockets socketId }
    (st', leftEvents ++
      [{ target := EmitTarget.broadcast socketId, event := "userOffline",
         payload := Payload.userIdP u },
       broadcastOnlineUsers st' none])
  | none => (st, leftEvents)

/-- The connection-time branch of `io.on("connection")`: register only
when the handshake `userId` is truthy. -/
def onConnection (st : ServerState) (socketId : ChannelId) (maybeUserId : Option UserId) :
    ServerState × List Emission :=
  if strFalsy maybeUserId then (st, [])
  else handleUserConnection st socketId (maybeUserId.getD "")

/-- `socket.join(conversationId)`: idempotent room join. -/
def joinRoom (current : List RoomId) (r : RoomId) : List RoomId :=
  if current.contains r then current else current ++ [r]

/-- `socket.on("joinConversation")`: `if (!conversationId) return;` then
`socket.join(conversationId)`. -/
def onJoinConversation (st : ServerState) (c : ChannelId) (conversationId : RoomId) :
    ServerState × List Emission :=
  if conversationId.isEmpty then (st, [])
  else ({ st with rooms := mapSet st.rooms c (joinRoom (joinedRooms st c) conversationId) }, [])

/-- `socket.on("sendMessage")`: on a falsy `conversationId` reply with a
single `error` to the sender; otherwise relay `newMessage` to the room
excluding the sender. -/
def onSendMessage (st : ServerState) (sender : ChannelId) (m : Message) :
    ServerState × List Emission :=
  if strFalsy m.conversationId then
    (st, [{ target := EmitTarget.self sender, event := "error",
            payload := Payload.errorP "Message must have a conversationId." }])
  else
    (st, [{ target := EmitTarget.room (m.conversationId.getD "") sender,
            event := "newMessage", payload := Payload.newMessageP m }])

structure ReadData where
  conversationId : Option String
  userId : Option String
  messageIds : Option (List String)
deriving DecidableEq, Repr

/-- `socket.on("messageRead")`: all three fields required (a present
array is truthy even when empty); relays to the room excluding sender. -/
def onMessageRead (st : ServerState) (sender : ChannelId) (d : ReadData) :
    ServerState × List Emission :=
  if strFalsy d.conversationId || strFalsy d.userId || d.messageIds.isNone then (st, [])
  else
    (st, [{ target := EmitTarget.room (d.conversationId.getD "") sender,
            event := "messageRead",
            payload := Payload.readReceiptP (d.conversationId.getD "") (d.userId.getD "")
              (d.messageIds.getD []) }])

structure TypingData where
  conversationId : Option String
  userId : Option String
deriving DecidableEq, Repr

/-- `socket.on("startTyping")`. -/
def onStartTyping (st : ServerState) (sender : ChannelId) (d : TypingData) :
    ServerState × List Emission :=
  if strFalsy d.conversationId || strFalsy d.userId then (st, [])
  else
    (st, [{ target := EmitTarget.room (d.conversationId.getD "") sender,
            event := "startTyping",
            payload := Payload.typingP (d.conversationId.getD "") (d.userId.getD "") }])

/-- `socket.on("stopTyping")`. -/
def onStopTyping (st : ServerState) (sender : ChannelId) (d : TypingData) :
    ServerState × List Emission :=
  if strFalsy d.conversationId || strFalsy d.userId then (st, [])
  else
    (st, [{ target := EmitTarget.room (d.conversationId.getD "") sender,
            event := "stopTyping",
            payload := Payload.typingP (d.conversationId.getD "") (d.userId.getD "") }])

/-- `socket.on("request-online-users")`: `broadcastOnlineUsers(socket)`,
so the roster goes to the requester only. -/
def onRequestOnlineUsers (st : ServerState) (sender : ChannelId) :
    ServerState × List Emission :=
  (st, [broadcastOnlineUsers st (some sender)])

structure CallData where
  toUser : UserId
  fromId : UserId
  signal : String
deriving DecidableEq, Repr

/-- `socket.on("call-user")`: look the callee up in `onlineUsers`; when
present, `io.to(recipient.socketId).emit("incoming-call", {from, signal})`;
otherwise only a log line, no emission. -/
def onCallUser (st : ServerState) (d : CallData) : ServerState × List Emission :=
  match mapGet st.onlineUsers d.toUser with
  | some recipient =>
    (st, [{ target := EmitTarget.channel recipient.socketId, event := "incoming-call",
            payload := Payload.callSignal d.fromId d.signal }])
  | none => (st, [])

/-- `socket.on("answer-made")`: same lookup-and-forward, event
`call-accepted`. -/
def onAnswerMade (st : ServerState) (d : CallData) : ServerState × List Emission :=
  match mapGet st.onlineUsers d.toUser with
  | some originalCaller =>
    (st, [{ target := EmitTarget.channel originalCaller.socketId, event := "call-accepted",
            payload := Payload.callSignal d.fromId d.signal }])
  | none => (st, [])

structure IceData where
  toUser : UserId
  candidate : String
deriving DecidableEq, Repr

/-- `socket.on("ice-candidate")`: forward to the callee's channel with
`from` resolved by reverse lookup `userSockets.get(socket.id)` of the
sending socket (which may be undefined). -/
def onIceCandidate (st : ServerState) (sender : ChannelId) (d : IceData) :
    ServerState × List Emission :=
  match mapGet st.onlineUsers d.toUser with
  | some recipient =>
    (st, [{ target := EmitTarget.channel recipient.socketId, event := "ice-candidate",
            payload := Payload.iceCandidateP (mapGet st.userSockets sender) d.candidate }])
  | none => (st, [])

/-- Both presence maps agree between two states (the room-membership
component may differ). -/
def registrySame (s t : ServerState) : Prop :=
  t.onlineUsers = s.onlineUsers ∧ t.userSockets = s.userSockets

theorem mapGet_mapDelete_self {β : Type} (m : List (String × β)) (k : String) :
    mapGet (mapDelete m k) k = none := by
  induction m with
  | nil => rfl
  | cons p rest ih =>
    by_cases h : p.1 = k
    · simp [mapDelete, h, ih]
    · simp [mapDelete, mapGet, h, ih]

/-- The state reached from the empty registry by connecting channel `c1`
as user `u1` and then channel `c2` as user `u2`. -/
def registerPair (u1 : UserId) (c1 : ChannelId) (u2 : UserId) (c2 : ChannelId) : ServerState :=
  (handleUserConnection ((handleUserConnection initState c1 u1).1) c2 u2).1

/-- Claim C1 counterexample: after register(u, c1) then register(u, c2),
disconnecting the stale channel c1 is NOT a no-op on u's presence entry —
the code finds u through `userSockets.get(c1)` (which was never cleaned up)
and deletes u's entry, so `lookupChannel u` is absent rather than `c2` and
u is removed from the registry. -/
theorem c1_counterexample :
    lookupChannel (handleUserDisconnection (registerPair "u" "c1" "u" "c2") "c1").1 "u"
      ≠ some "c2" ∧
    lookupChannel (handleUserDisconnection (registerPair "u" "c1" "u" "c2") "c1").1 "u"
      = none ∧
    isOnline (handleUserDisconnection (registerPair "u" "c1" "u" "c2") "c1").1 "u" = false := by
  decide

/-- Claim C1, amended: for every user `u` and distinct channels `c1`, `c2`,
after register(u, c1) followed by register(u, c2), deregistering channel
`c1` (its disconnect) evicts u's presence entry entirely: `lookupChannel u`
returns absent and u is removed from the registry (the identity guard the
spec describes is absent from the code). -/
theorem c1_stale_disconnect_evicts (u : UserId) (c1 c2 : ChannelId) (hne : c1 ≠ c2) :
    lookupChannel (handleUserDisconnection (registerPair u c1 u c2) c1).1 u = none ∧
    isOnline (handleUserDisconnection (registerPair u c1 u c2) c1).1 u = false := by
  simp [registerPair, handleUserConnection, handleUserDisconnection, broadcastOnlineUsers,
        mapSet, mapGet, mapDelete, lookupChannel, isOnline, initState, joinedRooms, hne]

/-- Witness for the amended claim C1 at u = "u", c1 = "c1", c2 = "c2". -/
theorem c1_stale_disconnect_evicts_witness :
    ("c1" : ChannelId) ≠ "c2" ∧
    (lookupChannel (handleUserDisconnection (registerPair "u" "c1" "u" "c2") "c1").1 "u" = none ∧
     isOnline (handleUserDisconnection (registerPair "u" "c1" "u" "c2") "c1").1 "u" = false) :=
  ⟨by decide, c1_stale_disconnect_evicts "u" "c1" "c2" (by decide)⟩

/-- The state with the single channel "cA" connected as user "uA". -/
def stOneUser : ServerState := (handleUserConnection initState "cA" "uA").1

/-- Claim C2 counterexample: when channel "cB" connects as "uB" while
"cA" is connected, the already-connected bystander "cA" also receives the
`onlineUsersList` emission of that connection event — the roster is not
sent to the newly connected channel only, because `handleUserConnection`
calls `broadcastOnlineUsers()` with no socket argument, which goes through
`io.emit` to every channel. -/
theorem c2_counterexample :
    receivesEvent (onConnection stOneUser "cB" (some "uB")).1 ["cA", "cB"]
      (onConnection stOneUser "cB" (some "uB")).2 "cA" "onlineUsersList" = true := by
  decide

/-- Claim C2, amended: on connection of a channel that supplies a
non-empty userId, after the `userOnline` broadcast the full current
roster is broadcast via `io.emit` to ALL connected channels — the newly
connected one and every bystander alike — not to the new channel only. -/
theorem c2_roster_broadcast_to_all (st : ServerState) (connected : List ChannelId)
    (c : ChannelId) (u : UserId) (hu : strFalsy (some u) = false) :
    (onConnection st c (some u)).2 =
      [{ target := EmitTarget.broadcast c, event := "userOnline",
         payload := Payload.userIdP u },
       { target := EmitTarget.all, event := "onlineUsersList",
         payload := Payload.userList (snapshotUserIds (onConnection st c (some u)).1) }] ∧
    ∀ ch : ChannelId, ch ∈ connected →
      receivesEvent (onConnection st c (some u)).1 connected
        (onConnection st c (some u)).2 ch "onlineUsersList" = true := by
  constructor
  · simp [onConnection, hu, handleUserConnection, broadcastOnlineUsers, snapshotUserIds]
  · intro ch hch
    simp [onConnection, hu, handleUserConnection, broadcastOnlineUsers,
          receivesEvent, delivers, hch]

/-- Witness for the amended claim C2 at the concrete connection of "cB"
as "uB" next to the connected bystander "cA". -/
theorem c2_roster_broadcast_to_all_witness :
    strFalsy (some "uB") = false ∧
    ((onConnection stOneUser "cB" (some "uB")).2 =
      [{ target := EmitTarget.broadcast "cB", event := "userOnline",
         payload := Payload.userIdP "uB" },
       { target := EmitTarget.all, event := "onlineUsersList",
         payload := Payload.userList
           (snapshotUserIds (onConnection stOneUser "cB" (some "uB")).1) }] ∧
     ∀ ch : ChannelId, ch ∈ ["cA", "cB"] →
       receivesEvent (onConnection stOneUser "cB" (some "uB")).1 ["cA", "cB"]
         (onConnection stOneUser "cB" (some "uB")).2 ch "onlineUsersList" = true) :=
  ⟨by decide, c2_roster_broadcast_to_all stOneUser ["cA", "cB"] "cB" "uB" (by decide)⟩

/-- Claim C8: `snapshotUserIds` returns the userIds of current presence
entries in insertion order — after registering u1 (on c1) and then u2
(on c2) it returns [u1, u2]; after u1's channel disconnects, it
returns [u2]. -/
theorem c8_snapshot_insertion_order (u1 u2 : UserId) (c1 c2 : ChannelId)
    (hu : u1 ≠ u2) (hc : c1 ≠ c2) :
    snapshotUserIds (registerPair u1 c1 u2 c2) = [u1, u2] ∧
    snapshotUserIds ((handleUserDisconnection (registerPair u1 c1 u2 c2) c1).1) = [u2] := by
  simp [registerPair, handleUserConnection, handleUserDisconnection, broadcastOnlineUsers,
        snapshotUserIds, mapKeys, mapSet, mapGet, mapDelete, initState, joinedRooms,
        hu, hc, Ne.symm hu, Ne.symm hc]

/-- Witness for claim C8 at u1 = "u1", u2 = "u2", c1 = "c1", c2 = "c2". -/
theorem c8_snapshot_insertion_order_witness :
    ("u1" : UserId) ≠ "u2" ∧ ("c1" : ChannelId) ≠ "c2" ∧
    (snapshotUserIds (registerPair "u1" "c1" "u2" "c2") = ["u1", "u2"] ∧
     snapshotUserIds ((handleUserDisconnection (registerPair "u1" "c1" "u2" "c2") "c1").1)
       = ["u2"]) :=
  ⟨by decide, by decide, c8_snapshot_insertion_order "u1" "u2" "c1" "c2" (by decide) (by decide)⟩

/-- Claim C3: when a channel with a registered userId disconnects, the
handler first emits `user-left-room` to each room it had joined (in
order), then exactly one `userOffline` broadcast to all other channels
(followed by the roster rebroadcast), and removes the user from the
registry, so `lookupChannel` for that user returns absent. -/
theorem c3_disconnect_sequence (st : ServerState) (c : ChannelId) (u : UserId)
    (hreg : mapGet st.userSockets c = some u)
    (hown : c ∉ joinedRooms st c) :
    (handleUserDisconnection st c).2 =
      (joinedRooms st c).map (fun r =>
        { target := EmitTarget.room r c, event := "user-left-room",
          payload := Payload.userLeftRoomP (some u) r })
      ++ [{ target := EmitTarget.broadcast c, event := "userOffline",
            payload := Payload.userIdP u },
          { target := EmitTarget.all, event := "onlineUsersList",
            payload := Payload.userList
              (snapshotUserIds (handleUserDisconnection st c).1) }] ∧
    ((handleUserDisconnection st c).2.countP (fun e => e.event == "userOffline")) = 1 ∧
    lookupChannel (handleUserDisconnection st c).1 u = none := by
  have hfilter : List.filter (fun r => r != c) (c :: joinedRooms st c) = joinedRooms st c := by
    simp only [List.filter_cons, bne_self_eq_false, Bool.false_eq_true, if_false]
    exact List.filter_eq_self.mpr fun a ha => by
      simp only [bne_iff_ne, ne_eq, decide_eq_true_eq]
      exact fun h => hown (h ▸ ha)
  have hst : (handleUserDisconnection st c).1 =
      { st with onlineUsers := mapDelete st.onlineUsers u,
                userSockets := mapDelete st.userSockets c } := by
    simp [handleUserDisconnection, hreg]
  refine ⟨?_, ?_, ?_⟩
  · rw [hst]
    simp [handleUserDisconnection, hreg, hfilter, broadcastOnlineUsers,
          snapshotUserIds, mapKeys]
  · simp [handleUserDisconnection, hreg, hfilter, broadcastOnlineUsers,
          List.countP_append, List.countP_map, List.countP_cons, Function.comp]
  · rw [hst]
    simp [lookupChannel, mapGet_mapDelete_self]

/-- Concrete pre-state for the claim C3 witness: channel "c" registered
as user "u" and joined to rooms "r1" and "r2". -/
def stC3 : ServerState :=
  ⟨[("u", { socketId := "c", status := "online" })], [("c", "u")], [("c", ["r1", "r2"])]⟩

/-- Witness for claim C3 at the concrete state `stC3`. -/
theorem c3_witness :
    mapGet stC3.userSockets "c" = some "u" ∧ "c" ∉ joinedRooms stC3 "c" ∧
    ((handleUserDisconnection stC3 "c").2 =
      (joinedRooms stC3 "c").map (fun r =>
        { target := EmitTarget.room r "c", event := "user-left-room",
          payload := Payload.userLeftRoomP (some "u") r })
      ++ [{ target := EmitTarget.broadcast "c", event := "userOffline",
            payload := Payload.userIdP "u" },
          { target := EmitTarget.all, event := "onlineUsersList",
            payload := Payload.userList
              (snapshotUserIds (handleUserDisconnection stC3 "c").1) }] ∧
     ((handleUserDisconnection stC3 "c").2.countP (fun e => e.event == "userOffline")) = 1 ∧
     lookupChannel (handleUserDisconnection stC3 "c").1 "u" = none) :=
  ⟨by decide, by decide, c3_disconnect_sequence stC3 "c" "u" (by decide) (by decide)⟩

/-- Claim C4: a `sendMessage` with a non-empty conversationId `cid` from
channel `a` produces exactly the one `newMessage` emission to room `cid`
excluding the sender, and a channel receives it exactly when it is
currently joined to `cid` and is not `a` itself. -/
theorem c4_send_message_delivery (st : ServerState) (connected : List ChannelId)
    (a : ChannelId) (m : Message) (cid : RoomId)
    (hc : m.conversationId = some cid) (hne : cid.isEmpty = false) :
    (onSendMessage st a m).2 =
      [{ target := EmitTarget.room cid a, event := "newMessage",
         payload := Payload.newMessageP m }] ∧
    ∀ ch : ChannelId,
      receivesEvent st connected (onSendMessage st a m).2 ch "newMessage"
        = (inRoom st ch cid && ch != a) := by
  constructor
  · simp [onSendMessage, hc, strFalsy, hne]
  · intro ch
    simp [onSendMessage, hc, strFalsy, hne, receivesEvent, delivers]

/-- Concrete message and membership state for the claim C4 witness:
channels "a" and "b" joined to room "r", channel "d" joined to nothing. -/
def stC4 : ServerState := ⟨[], [], [("a", ["r"]), ("b", ["r"]), ("d", [])]⟩

def msgC4 : Message := ⟨some "r", "hello"⟩

/-- Witness for claim C4 at the concrete state `stC4`. -/
theorem c4_witness :
    msgC4.conversationId = some "r" ∧ ("r" : String).isEmpty = false ∧
    ((onSendMessage stC4 "a" msgC4).2 =
      [{ target := EmitTarget.room "r" "a", event := "newMessage",
         payload := Payload.newMessageP msgC4 }] ∧
     ∀ ch : ChannelId,
       receivesEvent stC4 ["a", "b", "d"] (onSendMessage stC4 "a" msgC4).2 ch "newMessage"
         = (inRoom stC4 ch "r" && ch != "a")) :=
  ⟨by decide, by decide, c4_send_message_delivery stC4 ["a", "b", "d"] "a" msgC4 "r"
    (by decide) (by decide)⟩

/-- Claim C5: a `sendMessage` whose message lacks a conversationId leaves
the state unchanged (no throw, no connection close), emits exactly one
`error` event which only the sender receives, and emits zero
`newMessage` events to any channel. -/
theorem c5_missing_conversation_error (st : ServerState) (connected : List ChannelId)
    (a : ChannelId) (m : Message) (hmiss : strFalsy m.conversationId = true) :
    (onSendMessage st a m).1 = st ∧
    (onSendMessage st a m).2 =
      [{ target := EmitTarget.self a, event := "error",
         payload := Payload.errorP "Message must have a conversationId." }] ∧
    (∀ ch : ChannelId,
      receivesEvent st connected (onSendMessage st a m).2 ch "newMessage" = false) ∧
    (∀ ch : ChannelId,
      receivesEvent st connected (onSendMessage st a m).2 ch "error" = (ch == a)) := by
  refine ⟨?_, ?_, ?_, ?_⟩ <;> simp [onSendMessage, hmiss, receivesEvent, delivers]

def msgC5 : Message := ⟨none, "no room"⟩

/-- Witness for claim C5 at a message with no conversationId. -/
theorem c5_witness :
    strFalsy msgC5.conversationId = true ∧
    ((onSendMessage stC4 "a" msgC5).1 = stC4 ∧
     (onSendMessage stC4 "a" msgC5).2 =
       [{ target := EmitTarget.self "a", event := "error",
          payload := Payload.errorP "Message must have a conversationId." }] ∧
     (∀ ch : ChannelId,
       receivesEvent stC4 ["a", "b", "d"] (onSendMessage stC4 "a" msgC5).2 ch "newMessage"
         = false) ∧
     (∀ ch : ChannelId,
       receivesEvent stC4 ["a", "b", "d"] (onSendMessage stC4 "a" msgC5).2 ch "error"
         = (ch == "a"))) :=
  ⟨by decide, c5_missing_conversation_error stC4 ["a", "b", "d"] "a" msgC5 (by decide)⟩

/-- Claim C6: a `call-user` event never mutates state and never throws;
if the callee is registered, its handler produces exactly one
`incoming-call` emission carrying `{from, signal}` addressed to the
callee's current channel; if the callee is not registered, it produces
no emission at all. -/
theorem c6_call_user_forwarding (st : ServerState) (d : CallData) :
    (onCallUser st d).1 = st ∧
    (∀ cTo : ChannelId, lookupChannel st d.toUser = some cTo →
      (onCallUser st d).2 =
        [{ target := EmitTarget.channel cTo, event := "incoming-call",
           payload := Payload.callSignal d.fromId d.signal }]) ∧
    (lookupChannel st d.toUser = none → (onCallUser st d).2 = []) := by
  refine ⟨?_, ?_, ?_⟩
  · cases h : mapGet st.onlineUsers d.toUser <;> simp [onCallUser, h]
  · intro cTo hcTo
    cases h : mapGet st.onlineUsers d.toUser with
    | none => rw [lookupChannel, h] at hcTo; simp at hcTo
    | some entry =>
      rw [lookupChannel, h] at hcTo
      simp at hcTo
      simp [onCallUser, h, hcTo]
  · intro hnone
    cases h : mapGet st.onlineUsers d.toUser with
    | none => simp [onCallUser, h]
    | some entry => rw [lookupChannel, h] at hnone; simp at hnone

/-- Concrete state for the claim C6 witness: user "u2" registered on
channel "c2". -/
def stC6 : ServerState :=
  ⟨[("u2", { socketId := "c2", status := "online" })], [("c2", "u2")], []⟩

def dC6 : CallData := ⟨"u2", "u1", "S"⟩

/-- Witness for claim C6: the online branch at `stC6`. -/
theorem c6_witness :
    lookupChannel stC6 dC6.toUser = some "c2" ∧
    (onCallUser stC6 dC6).2 =
      [{ target := EmitTarget.channel "c2", event := "incoming-call",
         payload := Payload.callSignal "u1" "S" }] :=
  ⟨by decide, (c6_call_user_forwarding stC6 dC6).2.1 "c2" (by decide)⟩

/-- Claim C7: an `ice-candidate` event from a sender whose registered
userId is `u`, addressed to a registered user whose channel is `cTo`,
forwards exactly one `ice-candidate` emission `{from: u, candidate}` to
`cTo`, with `u` obtained by reverse lookup of the sending channel. -/
theorem c7_ice_candidate_registered (st : ServerState) (sender : ChannelId) (d : IceData)
    (u : UserId) (cTo : ChannelId)
    (hsender : mapGet st.userSockets sender = some u)
    (hto : lookupChannel st d.toUser = some cTo) :
    (onIceCandidate st sender d).1 = st ∧
    (onIceCandidate st sender d).2 =
      [{ target := EmitTarget.channel cTo, event := "ice-candidate",
         payload := Payload.iceCandidateP (some u) d.candidate }] := by
  cases h : mapGet st.onlineUsers d.toUser with
  | none => rw [lookupChannel, h] at hto; simp at hto
  | some entry =>
    rw [lookupChannel, h] at hto
    simp at hto
    simp [onIceCandidate, h, hto, hsender]

/-- Concrete state for the claims C7 and C10 witnesses: "u2" registered
on "c2"; channel "c1" registered as "u1"; channel "cx" unregistered. -/
def stC7 : ServerState :=
  ⟨[("u2", { socketId := "c2", status := "online" })],
   [("c1", "u1"), ("c2", "u2")], []⟩

def dC7 : IceData := ⟨"u2", "cand"⟩

/-- Witness for claim C7 at `stC7` with sender "c1". -/
theorem c7_witness :
    mapGet stC7.userSockets "c1" = some "u1" ∧
    lookupChannel stC7 dC7.toUser = some "c2" ∧
    ((onIceCandidate stC7 "c1" dC7).1 = stC7 ∧
     (onIceCandidate stC7 "c1" dC7).2 =
       [{ target := EmitTarget.channel "c2", event := "ice-candidate",
          payload := Payload.iceCandidateP (some "u1") "cand" }]) :=
  ⟨by decide, by decide,
   c7_ice_candidate_registered stC7 "c1" dC7 "u1" "c2" (by decide) (by decide)⟩

/-- Claim C10: an `ice-candidate` event from a sender that never
registered a userId is still forwarded to the registered callee's
channel, with the `from` field absent (undefined), rather than being
dropped or raising an error. -/
theorem c10_ice_candidate_unregistered_sender (st : ServerState) (sender : ChannelId)
    (d : IceData) (cTo : ChannelId)
    (hsender : mapGet st.userSockets sender = none)
    (hto : lookupChannel st d.toUser = some cTo) :
    (onIceCandidate st sender d).1 = st ∧
    (onIceCandidate st sender d).2 =
      [{ target := EmitTarget.channel cTo, event := "ice-candidate",
         payload := Payload.iceCandidateP none d.candidate }] := by
  cases h : mapGet st.onlineUsers d.toUser with
  | none => rw [lookupChannel, h] at hto; simp at hto
  | some entry =>
    rw [lookupChannel, h] at hto
    simp at hto
    simp [onIceCandidate, h, hto, hsender]

/-- Witness for claim C10 at `stC7` with the unregistered sender "cx". -/
theorem c10_witness :
    mapGet stC7.userSockets "cx" = none ∧
    lookupChannel stC7 dC7.toUser = some "c2" ∧
    ((onIceCandidate stC7 "cx" dC7).1 = stC7 ∧
     (onIceCandidate stC7 "cx" dC7).2 =
       [{ target := EmitTarget.channel "c2", event := "ice-candidate",
          payload := Payload.iceCandidateP none "cand" }]) :=
  ⟨by decide, by decide,
   c10_ice_candidate_unregistered_sender stC7 "cx" dC7 "c2" (by decide) (by decide)⟩

/-- Claim C9: none of the room-relay or signaling handlers
(`joinConversation`, `sendMessage`, `messageRead`, `startTyping`,
`stopTyping`, `request-online-users`, `call-user`, `answer-made`,
`ice-candidate`) mutates the presence registry: both the
userId-to-channel and the channel-to-userId maps are unchanged after
each handler runs, on every input. -/
theorem c9_relay_handlers_preserve_registry (st : ServerState) (c : ChannelId)
    (cid : RoomId) (m : Message) (rd : ReadData) (td : TypingData)
    (cd : CallData) (icd : IceData) :
    registrySame st (onJoinConversation st c cid).1 ∧
    registrySame st (onSendMessage st c m).1 ∧
    registrySame st (onMessageRead st c rd).1 ∧
    registrySame st (onStartTyping st c td).1 ∧
    registrySame st (onStopTyping st c td).1 ∧
    registrySame st (onRequestOnlineUsers st c).1 ∧
    registrySame st (onCallUser st cd).1 ∧
    registrySame st (onAnswerMade st cd).1 ∧
    registrySame st (onIceCandidate st c icd).1 := by
  refine ⟨?_, ?_, ?_, ?_, ?_, ?_, ?_, ?_, ?_⟩ <;>
    simp only [onJoinConversation, onSendMessage, onMessageRead, onStartTyping,
               onStopTyping, onRequestOnlineUsers, onCallUser, onAnswerMade,
               onIceCandidate] <;>
    (try split) <;>
    simp [registrySame]
